import Mathlib

/-
Verification of the live-chat ingestion core of nokchart (chzzk-chat-peak-analyze).

Shallow embedding of the Python sources:
  src/nokchart/chat/reconnect.py   (ReconnectionManager)
  src/nokchart/chat/websocket.py   (ChzzkWebSocket.poll_events heartbeat logic)
  src/nokchart/chat/client.py      (ChzzkChatClient.start error handling,
                                    ChzzkChatClient._handle_message dispatch)
  src/nokchart/collector.py        (Collector event loop, is_idle,
                                    check_stream_and_connection, generate_report,
                                    ChzzkChannelClient.get_stream_status)
  src/nokchart/watcher.py          (Watcher._check_channel live branch,
                                    Watcher._start_collection, Watcher._run_collector)
  src/nokchart/models.py           (StreamInfo pydantic model)

Durations and wall-clock instants are modelled as rationals (Python floats used by
the code stay exactly representable for the doubling/min arithmetic at issue).
Sleeps are recorded as data rather than performed.  Exceptions are modelled with
Except / explicit result constructors.
-/

/- ===================== Definitions ===================== -/

/- ---- src/nokchart/chat/reconnect.py : ReconnectionManager ---- -/

/-- State of ReconnectionManager (reconnect.py lines 20-39): configuration
plus the mutable attempt counter and current backoff. -/
structure ReconnectionManager where
  initial_backoff : ℚ
  max_backoff : ℚ
  max_attempts : ℕ
  attempts : ℕ
  current_backoff : ℚ
deriving Repr, DecidableEq

/-- Constructor of ReconnectionManager (reconnect.py lines 20-39):
attempts start at 0 and current backoff at the initial backoff. -/
def ReconnectionManager.init (ib mb : ℚ) (ma : ℕ) : ReconnectionManager :=
  ⟨ib, mb, ma, 0, ib⟩

/-- wait_before_reconnect (reconnect.py lines 41-75).  Returns the new state, the
duration slept (none when it returns without waiting), and the boolean result.
The code increments attempts, then, if max_attempts is positive and exceeded,
returns False without sleeping; otherwise it sleeps current_backoff, doubles the
backoff capped at max_backoff, and returns True. -/
def ReconnectionManager.wait_before_reconnect (m : ReconnectionManager) :
    ReconnectionManager × Option ℚ × Bool :=
  let m1 : ReconnectionManager := { m with attempts := m.attempts + 1 }
  if 0 < m1.max_attempts ∧ m1.max_attempts < m1.attempts then
    (m1, none, false)
  else
    ({ m1 with current_backoff := min (m1.current_backoff * 2) m1.max_backoff },
      some m1.current_backoff, true)

/-- reset (reconnect.py lines 77-86): attempts back to 0, backoff back to the
initial backoff. -/
def ReconnectionManager.reset (m : ReconnectionManager) : ReconnectionManager :=
  { m with attempts := 0, current_backoff := m.initial_backoff }

/-- Runs k consecutive failed connection cycles: each cycle calls
wait_before_reconnect once.  Returns the final state and the list of slept
durations in order. -/
def iterateFailures (m : ReconnectionManager) : ℕ → ReconnectionManager × List ℚ
  | 0 => (m, [])
  | n + 1 =>
    let r := m.wait_before_reconnect
    let rest := iterateFailures r.1 n
    (rest.1, r.2.1.toList ++ rest.2)

/- ---- src/nokchart/chat/websocket.py : poll_events heartbeat ---- -/

/-- Outcome of one receive_message call (websocket.py lines 151-190): a parsed
frame with its integer command code, a None return (closed flag set, or an
unexpected aiohttp message type), a timeout, or a raised ConnectionLostError
(server close / transport error). -/
inductive RecvOutcome
  | frame (cmd : ℤ)
  | noneMsg
  | timeout
  | transportError
deriving Repr, DecidableEq

/-- Client-originated sends inside poll_events. -/
inductive WsAction
  | sendPing
  | sendPong
deriving Repr, DecidableEq

/-- Result of one iteration of the poll_events loop. -/
inductive PollResult
  | yielded (cmd : ℤ)
  | continuePolling
  | heartbeatTimeout
  | connectionLost
deriving Repr, DecidableEq

/-- One iteration of ChzzkWebSocket.poll_events (websocket.py lines 206-245).
first is the outcome of the 58-second receive; second is the outcome of the
3-second PONG wait, consulted only when first timed out.  PONG frames (cmd
10000) are consumed, PING frames (cmd 0) are answered with a PONG, other frames
are yielded.  On the 58s timeout one PING is sent; a PONG within 3s continues
polling, a timeout, None, or non-PONG frame raises HeartbeatTimeoutError, and a
transport failure during the wait propagates as ConnectionLostError.  The PING
send itself is modelled as succeeding (a send failure raises
ConnectionLostError before any wait, websocket.py lines 136-142). -/
def pollStep (first second : RecvOutcome) : List WsAction × PollResult :=
  match first with
  | .frame c =>
    if c = 10000 then ([], .continuePolling)
    else if c = 0 then ([.sendPong], .continuePolling)
    else ([], .yielded c)
  | .noneMsg => ([], .continuePolling)
  | .transportError => ([], .connectionLost)
  | .timeout =>
    match second with
    | .frame c =>
      if c = 10000 then ([.sendPing], .continuePolling)
      else ([.sendPing], .heartbeatTimeout)
    | .noneMsg => ([.sendPing], .heartbeatTimeout)
    | .timeout => ([.sendPing], .heartbeatTimeout)
    | .transportError => ([.sendPing], .connectionLost)

/- ---- src/nokchart/chat/client.py : start() error handling ---- -/

/-- Exceptions that can escape one connect-and-poll cycle of
ChzzkChatClient.start (client.py lines 191-245). -/
inductive SessionError
  | connectionLost
  | heartbeatTimeout
  | channelNotFound
  | unexpectedError
deriving Repr, DecidableEq

/-- Control outcome of one iteration of the start() loop after an exception. -/
inductive SessionOutcome
  | continueLoop
  | exitLoop
  | raiseMaxReconnect
  | reraise (e : SessionError)
deriving Repr, DecidableEq

/-- Observable actions taken by the exception handlers of start(). -/
inductive ClientAction
  | dispatchDisconnect
  | closeWebsocket
  | invokePolicy
deriving Repr, DecidableEq

/-- Exception handling of ChzzkChatClient.start (client.py lines 211-245).
ConnectionLostError / HeartbeatTimeoutError: dispatch on_disconnect, close the
websocket when one is held, break the loop when stop() was requested, otherwise
call wait_before_reconnect and raise MaxReconnectAttemptsError when it returns
False.  ChannelNotFoundError is re-raised immediately.  Any other exception
invokes the reconnection policy without dispatching on_disconnect. -/
def handleSessionError (running hasWebsocket : Bool) (rm : ReconnectionManager)
    (e : SessionError) : List ClientAction × ReconnectionManager × SessionOutcome :=
  match e with
  | .connectionLost | .heartbeatTimeout =>
    let acts :=
      [ClientAction.dispatchDisconnect] ++
        (if hasWebsocket then [ClientAction.closeWebsocket] else [])
    if running = false then (acts, rm, .exitLoop)
    else
      let w := rm.wait_before_reconnect
      (acts ++ [ClientAction.invokePolicy], w.1,
        if w.2.2 then .continueLoop else .raiseMaxReconnect)
  | .channelNotFound => ([], rm, .reraise .channelNotFound)
  | .unexpectedError =>
    let w := rm.wait_before_reconnect
    ([ClientAction.invokePolicy], w.1,
      if w.2.2 then .continueLoop else .raiseMaxReconnect)

/- ---- src/nokchart/chat/client.py : _handle_message dispatch ---- -/

/-- The two fields of a raw chat record that select which callback is
dispatched (client.py lines 147-167).  Other record fields are passed to the
decoders but never influence the choice of callback. -/
structure MsgRecord where
  msgTypeCode : Option ℤ
  messageTypeCode : Option ℤ
deriving Repr, DecidableEq

/-- Python truthiness of an optional integer: None and 0 are falsy. -/
def pyTruthyInt : Option ℤ → Option ℤ
  | none => none
  | some v => if v = 0 then none else some v

/-- The effective message type computed by client.py lines 150-154: the Python
expression (data.get msgTypeCode or data.get messageTypeCode or 1), where the
or-chain skips missing and zero values. -/
def MsgRecord.effectiveType (r : MsgRecord) : ℤ :=
  match pyTruthyInt r.msgTypeCode with
  | some v => v
  | none =>
    match pyTruthyInt r.messageTypeCode with
    | some v => v
    | none => 1

/-- Which callback a record triggers. -/
inductive Dispatch
  | onChat
  | onDonation
  | droppedDebug
deriving Repr, DecidableEq

/-- Per-record dispatch of _handle_message (client.py lines 157-167): effective
type 1 dispatches on_chat, 10 dispatches on_donation, anything else is logged
at debug level and dropped. -/
def dispatchRecord (r : MsgRecord) : Dispatch :=
  let t := r.effectiveType
  if t = 1 then .onChat
  else if t = 10 then .onDonation
  else .droppedDebug

/-- ChzzkChatClient._handle_message (client.py lines 131-176): for cmd 93101 or
93102 the body must be a list and each record is dispatched in order (a missing
or empty body dispatches nothing); every other cmd only logs at debug level. -/
def handle_message (cmd : ℤ) (body : Option (List MsgRecord)) : List Dispatch :=
  if cmd = 93101 ∨ cmd = 93102 then
    match body with
    | none => []
    | some l => l.map dispatchRecord
  else []

/- ---- src/nokchart/collector.py : Collector ---- -/

/-- Event type tag of nokchart.models.ChatEvent. -/
inductive EventType
  | chat
  | donation
deriving Repr, DecidableEq

/-- The fields of nokchart.models.ChatEvent that Collector._collect_events
fills in (collector.py lines 411-422); received_at is the receipt wall clock. -/
structure ChatEvent where
  stream_id : String
  type : EventType
  t_ms : ℤ
  user : Option String
  user_id : Option String
  text : Option String
  amount : Option ℤ
  message_id : Option String
  received_at : ℚ
deriving Repr, DecidableEq

/-- String form of the event type tag. -/
def EventType.toStr : EventType → String
  | .chat => "chat"
  | .donation => "donation"

/-- Rendering of an optional string field in the serialized line. -/
def optFieldStr : Option String → String
  | none => "null"
  | some s => s

/-- Rendering of an optional integer field in the serialized line. -/
def optFieldInt : Option ℤ → String
  | none => "null"
  | some v => toString v

/-- One-line serialization of a ChatEvent, modelling json.dumps of
model_dump in Collector._save_event (collector.py lines 431-434).  The exact
JSON syntax is abstracted; what matters is that one event becomes exactly one
line determined by its fields, with no embedded newline. -/
def encodeEventLine (e : ChatEvent) : String :=
  e.stream_id ++ "|" ++ e.type.toStr ++ "|" ++ toString e.t_ms ++ "|" ++
    optFieldStr e.user ++ "|" ++ optFieldStr e.user_id ++ "|" ++
    optFieldStr e.text ++ "|" ++ optFieldInt e.amount ++ "|" ++
    optFieldStr e.message_id

/-- The Collector state touched by the event loop (collector.py lines 276-292):
the running flag, the event counter, the start and last-event clocks, the idle
timeout in minutes, and the contents of events.jsonl as a list of lines. -/
structure CollectorState where
  running : Bool
  event_count : ℕ
  start_time : Option ℚ
  last_event_time : Option ℚ
  idle_timeout_minutes : ℚ
  lines : List String
deriving Repr, DecidableEq

/-- Collector.__init__ (collector.py lines 276-292): not running, zero events,
no clocks yet, empty log. -/
def CollectorState.mkNew (idle_timeout_minutes : ℚ) : CollectorState :=
  ⟨false, 0, none, none, idle_timeout_minutes, []⟩

/-- The entry of Collector.start (collector.py lines 300-301): set running and
record the start time. -/
def CollectorState.startAt (c : CollectorState) (now : ℚ) : CollectorState :=
  { c with running := true, start_time := some now }

/-- Collector._save_event (collector.py lines 426-434): update last_event_time
and append exactly one serialized line to events.jsonl. -/
def CollectorState.save_event (c : CollectorState) (e : ChatEvent) (now : ℚ) :
    CollectorState :=
  { c with last_event_time := some now, lines := c.lines ++ [encodeEventLine e] }

/-- The consuming loop of Collector.start (collector.py lines 307-314): for
each arriving event, stop if the running flag was cleared, otherwise save the
event and increment event_count.  Each list entry pairs the decoded event with
its receipt time. -/
def CollectorState.collectLoop (c : CollectorState) :
    List (ChatEvent × ℚ) → CollectorState
  | [] => c
  | (e, t) :: rest =>
    if c.running then
      CollectorState.collectLoop
        { c.save_event e t with event_count := c.event_count + 1 } rest
    else c

/-- Collector.is_idle (collector.py lines 329-344): idle duration is measured
from last_event_time, or from start_time when no event arrived yet (False when
the collector was never started); idle when the duration in minutes is at
least idle_timeout_minutes. -/
def CollectorState.is_idle (c : CollectorState) (now : ℚ) : Bool :=
  match c.last_event_time with
  | none =>
    match c.start_time with
    | none => false
    | some st => decide (c.idle_timeout_minutes ≤ (now - st) / 60)
  | some le => decide (c.idle_timeout_minutes ≤ (now - le) / 60)

/- ---- src/nokchart/chat/http.py + collector.py : live status ---- -/

/-- The livePollingStatusJson field of the live-status payload: absent or
empty, present but unparseable, or parsed with its isPublishing flag
(collector.py lines 150-157). -/
inductive PollingField
  | absent
  | malformed
  | parsed (isPublishing : Bool)
deriving Repr, DecidableEq

/-- The live-status payload fields read by the collector: the outer status
string, the nested polling JSON, and the live id. -/
structure LiveStatusPayload where
  status : Option String
  polling : PollingField
  liveId : Option ℤ
deriving Repr, DecidableEq

/-- Liveness as computed by ChzzkChannelClient.get_stream_status (collector.py
lines 147-161): the nested isPublishing flag when the polling JSON parses,
falling back to the outer status field being OPEN. -/
def statusLooksLive (p : LiveStatusPayload) : Bool :=
  let fromPolling :=
    match p.polling with
    | .parsed b => b
    | _ => false
  if fromPolling then true else p.status == some "OPEN"

/-- Result of the get_live_status query as seen by the caller: a payload (or
None when the response had no content), or a raised exception. -/
inductive StatusQuery
  | ok (payload : Option LiveStatusPayload)
  | raisedError
deriving Repr, DecidableEq

/-- Collector.check_stream_and_connection (collector.py lines 346-388).
Arguments: the query outcome, whether self.client is set, whether
self.client.client (the inner chat client) is set, and whether the inner
client reports is_connected.  The code stops with stream_ended when the query
returns no payload or the outer status field is not OPEN; then stops with
client_not_initialized when a client object is missing; then reports
reconnecting when disconnected, quiet_stream otherwise; any raised query error
yields (False, check_error). -/
def check_stream_and_connection (q : StatusQuery)
    (clientWrapperPresent clientInnerPresent isConnected : Bool) : Bool × String :=
  match q with
  | .raisedError => (false, "check_error")
  | .ok none => (true, "stream_ended")
  | .ok (some p) =>
    if p.status == some "OPEN" then
      if clientWrapperPresent && clientInnerPresent then
        if isConnected then (false, "quiet_stream")
        else (false, "reconnecting")
      else (true, "client_not_initialized")
    else (true, "stream_ended")

/- ---- src/nokchart/models.py : StreamInfo (pydantic) ---- -/

/-- Stream status enum of nokchart.models.StreamStatus. -/
inductive StreamStatus
  | OFFLINE
  | LIVE
deriving Repr, DecidableEq

/-- The pydantic model nokchart.models.StreamInfo (models.py lines 91-99).
Its declared fields are exactly stream_id, channel_id, title, status,
start_time, end_time.  There is no live_id field. -/
structure StreamInfo where
  stream_id : String
  channel_id : String
  title : Option String
  status : StreamStatus
  start_time : Option ℚ
  end_time : Option ℚ
deriving Repr, DecidableEq

/-- A value read off a StreamInfo attribute. -/
inductive PyValue
  | str (s : String)
  | statusV (st : StreamStatus)
  | rat (q : ℚ)
  | noneV
deriving Repr, DecidableEq

/-- Python exceptions surfacing in the watcher poll. -/
inductive PyError
  | attributeError
deriving Repr, DecidableEq

/-- Attribute access on a StreamInfo instance.  A pydantic BaseModel with the
default configuration stores only its declared fields (extra keyword arguments
are ignored at construction), so reading any other attribute raises
AttributeError. -/
def StreamInfo.getattr (s : StreamInfo) : String → Except PyError PyValue
  | "stream_id" => .ok (.str s.stream_id)
  | "channel_id" => .ok (.str s.channel_id)
  | "title" =>
    .ok (match s.title with | some t => .str t | none => .noneV)
  | "status" => .ok (.statusV s.status)
  | "start_time" =>
    .ok (match s.start_time with | some t => .rat t | none => .noneV)
  | "end_time" =>
    .ok (match s.end_time with | some t => .rat t | none => .noneV)
  | _ => .error .attributeError

/-- The stream id derived in get_stream_status (collector.py line 169): the
live id and channel id joined, or an unknown marker when the live id is
missing or zero (Python truthiness). -/
def mkStreamId (live_id : Option ℤ) (channel_id : String) : String :=
  match pyTruthyInt live_id with
  | some l => toString l ++ "_" ++ channel_id
  | none => "unknown_" ++ channel_id

/-- The StreamInfo built by get_stream_status (collector.py lines 171-178).
The call passes a live_id keyword, but models.StreamInfo declares no such
field and pydantic's default extra handling silently drops it, so the value is
not stored on the instance. -/
def StreamInfo.fromGetStatus (live_id : Option ℤ) (channel_id title : String)
    (now : ℚ) : StreamInfo :=
  { stream_id := mkStreamId live_id channel_id,
    channel_id := channel_id,
    title := some title,
    status := .LIVE,
    start_time := some now,
    end_time := none }

/- ---- src/nokchart/watcher.py ---- -/

/-- Actions the watcher poll can take on a channel. -/
inductive WatcherAction
  | stopCollection (channel_id : String)
  | pauseBriefly
  | startCollection (stream_id : String)
deriving Repr, DecidableEq

/-- The new-broadcast branch of Watcher._check_channel (watcher.py lines
101-113), entered when the channel is live and an active collector exists: it
reads stream_info.live_id on the old and new StreamInfo, and on a change stops
the old collection, pauses briefly, and starts a new one.  The attribute reads
can raise, so the branch is an Except computation; a raised error is caught by
the surrounding except-Exception retry (watcher.py lines 145-155), which
performs none of these actions. -/
def checkChannelLiveBranch (activeInfo newInfo : StreamInfo) :
    Except PyError (List WatcherAction) := do
  let oldLive ← activeInfo.getattr "live_id"
  let newLive ← newInfo.getattr "live_id"
  if oldLive ≠ newLive then
    pure [WatcherAction.stopCollection activeInfo.channel_id,
      WatcherAction.pauseBriefly,
      WatcherAction.startCollection newInfo.stream_id]
  else
    pure []

/-- Watcher._start_collection duplicate guard (watcher.py lines 157-200):
active collectors are a dict keyed by stream_id; a request whose stream_id is
already a key returns immediately, before any output directory or collector is
created; otherwise a fresh output target is allocated and the collector is
inserted under its stream_id.  The boolean reports whether anything was
created. -/
def start_collection (active : List (String × ℕ)) (stream_id : String)
    (newCollector : ℕ) : List (String × ℕ) × Bool :=
  if stream_id ∈ active.map Prod.fst then (active, false)
  else (active ++ [(stream_id, newCollector)], true)

/-- Values appearing in a collection report. -/
inductive ReportValue
  | str (s : String)
  | nat (n : ℕ)
  | rat (q : ℚ)
  | noneV
deriving Repr, DecidableEq

/-- The collector state consulted when the report is generated:
identity, counters, clocks, the events file path, and whether
self.client.client (the inner chat client) is still present. -/
structure CollectorFinal where
  stream_id : String
  channel_id : String
  event_count : ℕ
  start_time : Option ℚ
  events_file : String
  reconnect_count : ℕ
  error_count : ℕ
  clientInnerPresent : Bool
deriving Repr, DecidableEq

/-- Collector.generate_report (collector.py lines 436-452): the report always
holds stream_id, channel_id, event_count, start_time, end_time and
events_file; reconnect_count and error_count are added only when the wrapper
still holds an inner chat client. -/
def generate_report (c : CollectorFinal) (now : ℚ) : List (String × ReportValue) :=
  [("stream_id", ReportValue.str c.stream_id),
   ("channel_id", ReportValue.str c.channel_id),
   ("event_count", ReportValue.nat c.event_count),
   ("start_time",
     match c.start_time with | some t => ReportValue.rat t | none => ReportValue.noneV),
   ("end_time", ReportValue.rat now),
   ("events_file", ReportValue.str c.events_file)] ++
    (if c.clientInnerPresent then
      [("reconnect_count", ReportValue.nat c.reconnect_count),
       ("error_count", ReportValue.nat c.error_count)]
    else [])

/-- Dict assignment previous_status channel = value: update the entry in
place when the key is present (Python dicts keep insertion order), append a
new entry otherwise. -/
def setStatus : List (String × StreamStatus) → String → StreamStatus →
    List (String × StreamStatus)
  | [], ch, st => [(ch, st)]
  | p :: rest, ch, st =>
    if p.1 = ch then (ch, st) :: rest else p :: setStatus rest ch st

/-- Dict lookup in previous_status. -/
def lookupStatus (m : List (String × StreamStatus)) (ch : String) :
    Option StreamStatus :=
  (m.find? (fun p => p.1 = ch)).map Prod.snd

/-- Guarded dict deletion of the stream from active_collectors (watcher.py
lines 263-264). -/
def removeActive (m : List (String × ℕ)) (sid : String) : List (String × ℕ) :=
  if sid ∈ m.map Prod.fst then m.filter (fun p => ¬ p.1 = sid) else m

/-- Outcome of the completion block of Watcher._run_collector. -/
structure FinalizeResult where
  report : List (String × ReportValue)
  hookInvocations : ℕ
  active_after : List (String × ℕ)
  previous_status_after : List (String × StreamStatus)
deriving Repr, DecidableEq

/-- The finally block of Watcher._run_collector (watcher.py lines 240-269),
run on every completion path: write the report from generate_report, adding a
stop_reason entry only when the idle monitor recorded a truthy reason; invoke
the post-processing hook exactly when at least one event was recorded; delete
the stream from the active map; set the channel's previous status to OFFLINE. -/
def run_collector_finalize (c : CollectorFinal) (now : ℚ) (stop_reason : Option String)
    (active : List (String × ℕ)) (prev : List (String × StreamStatus)) :
    FinalizeResult :=
  let report :=
    generate_report c now ++
      (match stop_reason with
       | some r => if r = "" then [] else [("stop_reason", ReportValue.str r)]
       | none => [])
  { report := report,
    hookInvocations := if 0 < c.event_count then 1 else 0,
    active_after := removeActive active c.stream_id,
    previous_status_after := setStatus prev c.channel_id .OFFLINE }

/- ===================== Theorems ===================== -/

/- ---- helper lemmas: ReconnectionManager ---- -/

theorem wait_fst_attempts (m : ReconnectionManager) :
    m.wait_before_reconnect.1.attempts = m.attempts + 1 := by
  simp only [ReconnectionManager.wait_before_reconnect]
  split <;> rfl

theorem wait_fst_config (m : ReconnectionManager) :
    m.wait_before_reconnect.1.initial_backoff = m.initial_backoff ∧
    m.wait_before_reconnect.1.max_backoff = m.max_backoff ∧
    m.wait_before_reconnect.1.max_attempts = m.max_attempts := by
  simp only [ReconnectionManager.wait_before_reconnect]
  split <;> exact ⟨rfl, rfl, rfl⟩

theorem iterateFailures_attempts (k : ℕ) (m : ReconnectionManager) :
    (iterateFailures m k).1.attempts = m.attempts + k ∧
    (iterateFailures m k).1.max_attempts = m.max_attempts := by
  induction k generalizing m with
  | zero => exact ⟨rfl, rfl⟩
  | succ n ih =>
    have h1 := ih m.wait_before_reconnect.1
    have h2 := wait_fst_attempts m
    have h3 := (wait_fst_config m).2.2
    constructor
    · show (iterateFailures m.wait_before_reconnect.1 n).1.attempts = m.attempts + (n + 1)
      rw [h1.1, h2]
      omega
    · show (iterateFailures m.wait_before_reconnect.1 n).1.max_attempts = m.max_attempts
      rw [h1.2, h3]

theorem min_mul_pow_cap (x M : ℚ) (hM : 0 ≤ M) (i : ℕ) :
    min (min (x * 2) M * 2 ^ i) M = min (x * 2 ^ (i + 1)) M := by
  have h2i : (1 : ℚ) ≤ 2 ^ i := one_le_pow₀ (by norm_num)
  rcases le_total (x * 2) M with h | h
  · rw [min_eq_left h, pow_succ, ← mul_assoc, mul_comm (x * 2) (2 ^ i),
      mul_comm x (2 ^ i), mul_assoc]
  · rw [min_eq_right h]
    have hMi : M ≤ M * 2 ^ i := le_mul_of_one_le_right hM h2i
    have hxi : M ≤ x * 2 ^ (i + 1) := by
      calc M ≤ x * 2 := h
        _ ≤ x * 2 * 2 ^ i := le_mul_of_one_le_right (le_trans hM h) h2i
        _ = x * 2 ^ (i + 1) := by ring
    rw [min_eq_right hMi, min_eq_right hxi]

theorem iterateFailures_unlimited (b M : ℚ) (hM : 0 ≤ M) (k : ℕ) :
    ∀ (a : ℕ) (c : ℚ), c ≤ M →
      iterateFailures ⟨b, M, 0, a, c⟩ k =
        (⟨b, M, 0, a + k, min (c * 2 ^ k) M⟩,
          (List.range k).map (fun i => min (c * 2 ^ i) M)) := by
  induction k with
  | zero =>
    intro a c hc
    simp [iterateFailures, min_eq_left hc]
  | succ n ih =>
    intro a c hc
    have hstep : (ReconnectionManager.wait_before_reconnect ⟨b, M, 0, a, c⟩) =
        (⟨b, M, 0, a + 1, min (c * 2) M⟩, some c, true) := by
      unfold ReconnectionManager.wait_before_reconnect
      simp
    have hc2 : min (c * 2) M ≤ M := min_le_right _ _
    have ihv := ih (a + 1) (min (c * 2) M) hc2
    show (let r := ReconnectionManager.wait_before_reconnect ⟨b, M, 0, a, c⟩
          let rest := iterateFailures r.1 n
          (rest.1, r.2.1.toList ++ rest.2)) = _
    rw [hstep]
    simp only [ihv]
    have hfst : (⟨b, M, 0, a + 1 + n, min (min (c * 2) M * 2 ^ n) M⟩ : ReconnectionManager)
        = ⟨b, M, 0, a + (n + 1), min (c * 2 ^ (n + 1)) M⟩ := by
      rw [min_mul_pow_cap c M hM n, ReconnectionManager.mk.injEq]
      exact ⟨rfl, rfl, rfl, by omega, rfl⟩
    have hsnd : (some c).toList ++ (List.range n).map (fun i => min (min (c * 2) M * 2 ^ i) M)
        = (List.range (n + 1)).map (fun i => min (c * 2 ^ i) M) := by
      show c :: (List.range n).map (fun i => min (min (c * 2) M * 2 ^ i) M) = _
      rw [List.range_succ_eq_map, List.map_cons, List.map_map]
      congr 1
      · simp [min_eq_left hc]
      · apply List.map_congr_left
        intro i _
        show min (min (c * 2) M * 2 ^ i) M = min (c * 2 ^ (i + 1)) M
        exact min_mul_pow_cap c M hM i
    rw [Prod.mk.injEq]
    exact ⟨hfst, hsnd⟩

/- ---- Claim C3 ---- -/

/-- Claim C3: for a reconnection policy with initial backoff b, max backoff M
and max attempts N, every call to wait_before_reconnect increments attempts;
when N is positive and the incremented attempts exceeds N the call returns
false without sleeping (in particular the call following N consecutive
failures does); otherwise it sleeps the current backoff, then doubles it
capped at M and returns true — so consecutive failed cycles wait b, 2b, 4b,
... capped at M — and reset restores attempts to 0 and the backoff to b. -/
theorem C3_reconnect_backoff_policy (b M : ℚ) (N k : ℕ) (hM : 0 ≤ M) (hbM : b ≤ M) :
    (∀ m : ReconnectionManager, m.wait_before_reconnect.1.attempts = m.attempts + 1)
    ∧ (∀ m : ReconnectionManager, 0 < m.max_attempts → m.max_attempts < m.attempts + 1 →
        m.wait_before_reconnect = ({ m with attempts := m.attempts + 1 }, none, false))
    ∧ (∀ m : ReconnectionManager, (0 < m.max_attempts → m.attempts + 1 ≤ m.max_attempts) →
        m.wait_before_reconnect =
          ({ m with attempts := m.attempts + 1, current_backoff := min (m.current_backoff * 2) m.max_backoff },
            some m.current_backoff, true))
    ∧ (0 < N →
        (iterateFailures (ReconnectionManager.init b M N) N).1.wait_before_reconnect.2
          = (none, false))
    ∧ ((iterateFailures (ReconnectionManager.init b M 0) k).2
        = (List.range k).map (fun i => min (b * 2 ^ i) M))
    ∧ (∀ m : ReconnectionManager,
        m.reset = { m with attempts := 0, current_backoff := m.initial_backoff }) := by
  refine ⟨wait_fst_attempts, ?_, ?_, ?_, ?_, fun m => rfl⟩
  · intro m h1 h2
    simp only [ReconnectionManager.wait_before_reconnect]
    split
    · rfl
    · rename_i h
      exact absurd ⟨h1, h2⟩ h
  · intro m h
    simp only [ReconnectionManager.wait_before_reconnect]
    split
    · rename_i hcond
      have h1 : 0 < m.max_attempts := hcond.1
      have h2 : m.max_attempts < m.attempts + 1 := hcond.2
      have h3 := h h1
      omega
    · rfl
  · intro hN
    have ha := iterateFailures_attempts N (ReconnectionManager.init b M N)
    have h1 : (iterateFailures (ReconnectionManager.init b M N) N).1.attempts = 0 + N := ha.1
    have h2 : (iterateFailures (ReconnectionManager.init b M N) N).1.max_attempts = N := ha.2
    simp only [ReconnectionManager.wait_before_reconnect]
    split
    · rfl
    · rename_i h
      refine absurd ⟨?_, ?_⟩ h
      · show 0 < (iterateFailures (ReconnectionManager.init b M N) N).1.max_attempts
        omega
      · show (iterateFailures (ReconnectionManager.init b M N) N).1.max_attempts <
          (iterateFailures (ReconnectionManager.init b M N) N).1.attempts + 1
        omega
  · have h := iterateFailures_unlimited b M hM k 0 b hbM
    show (iterateFailures ⟨b, M, 0, 0, b⟩ k).2 = _
    rw [h]

/-- Witness for C3: initial backoff 1, max backoff 60, max attempts 3; the
three failed cycles sleep 1, 2, 4 and the fourth call returns false without
sleeping. -/
theorem C3_reconnect_backoff_policy_witness :
    (0 : ℚ) ≤ 60 ∧ (1 : ℚ) ≤ 60 ∧
      (iterateFailures (ReconnectionManager.init 1 60 0) 3).2 = [1, 2, 4] ∧
      (iterateFailures (ReconnectionManager.init 1 60 3) 3).1.wait_before_reconnect.2
        = (none, false) := by
  have h := C3_reconnect_backoff_policy 1 60 3 3 (by norm_num) (by norm_num)
  refine ⟨by norm_num, by norm_num, ?_, h.2.2.2.1 (by norm_num)⟩
  rw [h.2.2.2.2.1]
  norm_num [List.range_succ, min_eq_left]

/- ---- Claim C2 ---- -/

/-- Claim C2: in one iteration of the poll loop, a 58-second silence sends
exactly one client PING (and a PING is sent only after such a silence); a PONG
frame (cmd 10000) within the 3-second window continues polling with no error;
and HeartbeatTimeoutError is raised exactly when the window produced neither a
PONG nor a transport failure, so it is raised only when a PONG is absent. -/
theorem C2_heartbeat_protocol (s f : RecvOutcome) :
    (pollStep .timeout s).1 = [WsAction.sendPing]
    ∧ ((pollStep f s).1.count WsAction.sendPing = if f = .timeout then 1 else 0)
    ∧ pollStep .timeout (.frame 10000) = ([WsAction.sendPing], .continuePolling)
    ∧ ((pollStep .timeout s).2 = PollResult.heartbeatTimeout
        ↔ (s ≠ .frame 10000 ∧ s ≠ .transportError)) := by
  have hping : ∀ s2 : RecvOutcome, (pollStep .timeout s2).1 = [WsAction.sendPing] := by
    intro s2
    cases s2 with
    | frame c => simp only [pollStep]; split <;> rfl
    | noneMsg => rfl
    | timeout => rfl
    | transportError => rfl
  refine ⟨hping s, ?_, rfl, ?_⟩
  · cases f with
    | frame c => simp only [pollStep]; split <;> simp <;> split <;> simp
    | noneMsg => simp [pollStep]
    | timeout => rw [hping s]; simp
    | transportError => simp [pollStep]
  · cases s with
    | frame c =>
      by_cases hc : c = 10000
      · subst hc; simp [pollStep]
      · simp [pollStep, hc]
    | noneMsg => simp [pollStep]
    | timeout => simp [pollStep]
    | transportError => simp [pollStep]

/-- Witness for C2: the PONG-in-time and the silent-window outcomes. -/
theorem C2_heartbeat_protocol_witness :
    (pollStep .timeout .timeout).1 = [WsAction.sendPing]
    ∧ ((pollStep RecvOutcome.timeout .timeout).1.count WsAction.sendPing
        = if RecvOutcome.timeout = RecvOutcome.timeout then 1 else 0)
    ∧ pollStep .timeout (.frame 10000) = ([WsAction.sendPing], .continuePolling)
    ∧ ((pollStep .timeout .timeout).2 = PollResult.heartbeatTimeout
        ↔ (RecvOutcome.timeout ≠ .frame 10000 ∧ RecvOutcome.timeout ≠ .transportError)) :=
  C2_heartbeat_protocol .timeout .timeout

/- ---- Claim C5 ---- -/

/-- Claim C5: in the start() loop, a ConnectionLostError or
HeartbeatTimeoutError dispatches on_disconnect, closes the current websocket
when one is held, and — unless stop() was requested — invokes the
reconnection policy, raising MaxReconnectAttemptsError exactly when the policy
signals exhaustion; these transient errors never surface as a re-raise; a
ChannelNotFoundError is re-raised immediately without invoking the policy. -/
theorem C5_session_error_handling (running hasWebsocket : Bool)
    (rm : ReconnectionManager) (e : SessionError) :
    ((e = SessionError.connectionLost ∨ e = SessionError.heartbeatTimeout) →
      ClientAction.dispatchDisconnect ∈ (handleSessionError running hasWebsocket rm e).1
      ∧ (hasWebsocket = true →
          ClientAction.closeWebsocket ∈ (handleSessionError running hasWebsocket rm e).1)
      ∧ (running = false →
          (handleSessionError running hasWebsocket rm e).2.2 = SessionOutcome.exitLoop
          ∧ ClientAction.invokePolicy ∉ (handleSessionError running hasWebsocket rm e).1)
      ∧ (running = true →
          ClientAction.invokePolicy ∈ (handleSessionError running hasWebsocket rm e).1
          ∧ (handleSessionError running hasWebsocket rm e).2.1 = rm.wait_before_reconnect.1
          ∧ ((handleSessionError running hasWebsocket rm e).2.2
                = SessionOutcome.raiseMaxReconnect
              ↔ rm.wait_before_reconnect.2.2 = false))
      ∧ (∀ e2, (handleSessionError running hasWebsocket rm e).2.2
          ≠ SessionOutcome.reraise e2))
    ∧ handleSessionError running hasWebsocket rm SessionError.channelNotFound
        = ([], rm, SessionOutcome.reraise SessionError.channelNotFound) := by
  constructor
  · intro he
    rcases he with rfl | rfl <;>
    · cases running with
      | false => cases hasWebsocket <;> simp [handleSessionError]
      | true =>
        by_cases hw : rm.wait_before_reconnect.2.2 = true
        · cases hasWebsocket <;> simp [handleSessionError, hw]
        · rw [Bool.not_eq_true] at hw
          cases hasWebsocket <;> simp [handleSessionError, hw]
  · rfl

/-- Witness for C5: a lost connection with stop() not requested and one
websocket held, for a policy with exhausted budget. -/
theorem C5_session_error_handling_witness :
    ((SessionError.connectionLost = SessionError.connectionLost
        ∨ SessionError.connectionLost = SessionError.heartbeatTimeout) →
      ClientAction.dispatchDisconnect ∈
        (handleSessionError true true (ReconnectionManager.init 1 60 0)
          SessionError.connectionLost).1
      ∧ (true = true →
          ClientAction.closeWebsocket ∈
            (handleSessionError true true (ReconnectionManager.init 1 60 0)
              SessionError.connectionLost).1)
      ∧ (true = false →
          (handleSessionError true true (ReconnectionManager.init 1 60 0)
              SessionError.connectionLost).2.2 = SessionOutcome.exitLoop
          ∧ ClientAction.invokePolicy ∉
              (handleSessionError true true (ReconnectionManager.init 1 60 0)
                SessionError.connectionLost).1)
      ∧ (true = true →
          ClientAction.invokePolicy ∈
            (handleSessionError true true (ReconnectionManager.init 1 60 0)
              SessionError.connectionLost).1
          ∧ (handleSessionError true true (ReconnectionManager.init 1 60 0)
              SessionError.connectionLost).2.1
              = (ReconnectionManager.init 1 60 0).wait_before_reconnect.1
          ∧ ((handleSessionError true true (ReconnectionManager.init 1 60 0)
                SessionError.connectionLost).2.2 = SessionOutcome.raiseMaxReconnect
              ↔ (ReconnectionManager.init 1 60 0).wait_before_reconnect.2.2 = false))
      ∧ (∀ e2, (handleSessionError true true (ReconnectionManager.init 1 60 0)
          SessionError.connectionLost).2.2 ≠ SessionOutcome.reraise e2))
    ∧ handleSessionError true true (ReconnectionManager.init 1 60 0)
        SessionError.channelNotFound
        = ([], ReconnectionManager.init 1 60 0,
            SessionOutcome.reraise SessionError.channelNotFound) :=
  C5_session_error_handling true true (ReconnectionManager.init 1 60 0)
    SessionError.connectionLost

/- ---- Claim C1 ---- -/

theorem collectLoop_cons (c : CollectorState) (e : ChatEvent) (t : ℚ)
    (rest : List (ChatEvent × ℚ)) (h : c.running = true) :
    c.collectLoop ((e, t) :: rest)
      = CollectorState.collectLoop
          { c.save_event e t with event_count := c.event_count + 1 } rest := by
  simp [CollectorState.collectLoop, h]

/-- Claim C1: within one collection run, each consumed event is appended to
events.jsonl as exactly one serialized line, in receipt order, and after
consuming n events the event counter has grown by n, matching the number of
lines written; in particular 5 events yield exactly 5 lines in arrival order
and an event count of 5. -/
theorem C1_events_logged_in_order (c : CollectorState) (evs : List (ChatEvent × ℚ))
    (h : c.running = true) :
    (c.collectLoop evs).lines = c.lines ++ evs.map (fun p => encodeEventLine p.1)
    ∧ (c.collectLoop evs).event_count = c.event_count + evs.length := by
  induction evs generalizing c with
  | nil => simp [CollectorState.collectLoop]
  | cons p rest ih =>
    obtain ⟨e, t⟩ := p
    have hrun : ({ c.save_event e t with
        event_count := c.event_count + 1 } : CollectorState).running = true := h
    have ihv := ih _ hrun
    rw [collectLoop_cons c e t rest h]
    constructor
    · rw [ihv.1]
      simp [CollectorState.save_event]
    · rw [ihv.2]
      simp [CollectorState.save_event]
      omega

/-- Five sample chat events with increasing receipt times. -/
def c1Event (i : ℕ) : ChatEvent :=
  { stream_id := "42_ch", type := EventType.chat, t_ms := 1000 * (i : ℤ),
    user := some "user", user_id := some "uid", text := some ("m" ++ toString i),
    amount := none, message_id := some (toString i), received_at := (i : ℚ) }

/-- The five sample events paired with receipt times. -/
def c1Events : List (ChatEvent × ℚ) :=
  [(c1Event 0, 10), (c1Event 1, 11), (c1Event 2, 12), (c1Event 3, 13), (c1Event 4, 14)]

/-- Witness for C1: a freshly started collector consuming the 5 sample events
writes exactly the 5 serialized lines in order and counts 5 events. -/
theorem C1_events_logged_in_order_witness :
    ((CollectorState.mkNew 2).startAt 0).running = true
    ∧ ((((CollectorState.mkNew 2).startAt 0).collectLoop c1Events).lines
        = ((CollectorState.mkNew 2).startAt 0).lines
            ++ c1Events.map (fun p => encodeEventLine p.1)
      ∧ (((CollectorState.mkNew 2).startAt 0).collectLoop c1Events).event_count
        = ((CollectorState.mkNew 2).startAt 0).event_count + c1Events.length)
    ∧ (((CollectorState.mkNew 2).startAt 0).collectLoop c1Events).event_count = 5 :=
  ⟨rfl, C1_events_logged_in_order _ c1Events rfl, rfl⟩

/- ---- Claim C10 ---- -/

/-- Claim C10: once the collector has started, is_idle is true exactly when
the time elapsed since last_event_time — or since start_time when no event has
been recorded yet — is at least the idle timeout; it is false immediately
after an event is recorded and becomes true once the timeout elapses with no
further event. -/
theorem C10_is_idle_characterization (c : CollectorState) (now st : ℚ) (e : ChatEvent)
    (hstart : c.start_time = some st) (hpos : 0 < c.idle_timeout_minutes) :
    (c.is_idle now = true
      ↔ 60 * c.idle_timeout_minutes ≤ now - c.last_event_time.getD st)
    ∧ (c.save_event e now).is_idle now = false
    ∧ (c.save_event e now).is_idle (now + 60 * c.idle_timeout_minutes) = true := by
  have h60 : (0 : ℚ) < 60 := by norm_num
  refine ⟨?_, ?_, ?_⟩
  · cases hle : c.last_event_time with
    | none =>
      simp only [CollectorState.is_idle, hle, hstart, Option.getD_none, decide_eq_true_eq]
      rw [le_div_iff h60]
      constructor <;> intro hx <;> linarith
    | some le =>
      simp only [CollectorState.is_idle, hle, Option.getD_some, decide_eq_true_eq]
      rw [le_div_iff h60]
      constructor <;> intro hx <;> linarith
  · simp only [CollectorState.save_event, CollectorState.is_idle, sub_self, zero_div]
    exact decide_eq_false (not_le.mpr hpos)
  · simp only [CollectorState.save_event, CollectorState.is_idle, add_sub_cancel_left]
    refine decide_eq_true ?_
    rw [le_div_iff h60]
    linarith

/-- A sample chat event used by the C10 witness. -/
def sampleEvent : ChatEvent :=
  { stream_id := "42_ch", type := EventType.chat, t_ms := 0,
    user := some "user", user_id := some "uid", text := some "hello",
    amount := none, message_id := some "m1", received_at := 0 }

/-- Witness for C10: a collector started at time 0 with a 2-minute idle
timeout, probed at time 130. -/
theorem C10_is_idle_characterization_witness :
    ((CollectorState.mkNew 2).startAt 0).start_time = some 0
    ∧ 0 < ((CollectorState.mkNew 2).startAt 0).idle_timeout_minutes
    ∧ ((((CollectorState.mkNew 2).startAt 0).is_idle 130 = true
        ↔ 60 * ((CollectorState.mkNew 2).startAt 0).idle_timeout_minutes
            ≤ 130 - ((CollectorState.mkNew 2).startAt 0).last_event_time.getD 0)
      ∧ (((CollectorState.mkNew 2).startAt 0).save_event sampleEvent 130).is_idle 130 = false
      ∧ (((CollectorState.mkNew 2).startAt 0).save_event sampleEvent 130).is_idle
          (130 + 60 * ((CollectorState.mkNew 2).startAt 0).idle_timeout_minutes) = true) :=
  ⟨rfl, by norm_num [CollectorState.mkNew, CollectorState.startAt],
    C10_is_idle_characterization ((CollectorState.mkNew 2).startAt 0) 130 0 sampleEvent
      rfl (by norm_num [CollectorState.mkNew, CollectorState.startAt])⟩

/- ---- Claim C9 ---- -/

/-- Claim C9: the watcher's active collectors are keyed by stream_id, so every
reachable map has at most one collector per stream_id, and a start request for
a stream_id already present is refused — nothing is created and the map is
unchanged. -/
theorem C9_one_collector_per_stream (active : List (String × ℕ)) (sid : String)
    (nc : ℕ) (hnodup : (active.map Prod.fst).Nodup) :
    (sid ∈ active.map Prod.fst → start_collection active sid nc = (active, false))
    ∧ ((start_collection active sid nc).1.map Prod.fst).Nodup
    ∧ (∀ s : String, ((start_collection active sid nc).1.map Prod.fst).count s ≤ 1) := by
  have hnd : ((start_collection active sid nc).1.map Prod.fst).Nodup := by
    by_cases hmem : sid ∈ active.map Prod.fst
    · simpa [start_collection, hmem] using hnodup
    · simp [start_collection, hmem, List.nodup_append, hnodup]
  refine ⟨?_, hnd, fun s => List.nodup_iff_count_le_one.mp hnd s⟩
  intro hmem
  simp [start_collection, hmem]

/-- Witness for C9: a map already holding stream 42_ch refuses a second start
for 42_ch. -/
theorem C9_one_collector_per_stream_witness :
    ((([("42_ch", 0)] : List (String × ℕ)).map Prod.fst).Nodup)
    ∧ (("42_ch" ∈ ([("42_ch", 0)] : List (String × ℕ)).map Prod.fst →
          start_collection [("42_ch", 0)] "42_ch" 1 = ([("42_ch", 0)], false))
      ∧ ((start_collection [("42_ch", 0)] "42_ch" 1).1.map Prod.fst).Nodup
      ∧ (∀ s : String,
          ((start_collection [("42_ch", 0)] "42_ch" 1).1.map Prod.fst).count s ≤ 1)) :=
  ⟨by simp, C9_one_collector_per_stream [("42_ch", 0)] "42_ch" 1 (by simp)⟩

/- ---- Claim C8 ---- -/

/-- Claim C8 counterexample: a record carrying the explicit type code 0 —
which is neither 1 nor 10 — nevertheless dispatches the on_chat callback,
because the Python or-chain treats 0 as falsy and falls through to the
default type 1; the claim says any type code other than 1 and 10 dispatches
no callback. -/
theorem C8_counterexample :
    (MsgRecord.mk (some 0) none).msgTypeCode = some 0
    ∧ (0 : ℤ) ≠ 1 ∧ (0 : ℤ) ≠ 10
    ∧ dispatchRecord (MsgRecord.mk (some 0) none) = Dispatch.onChat
    ∧ handle_message 93101 (some [MsgRecord.mk (some 0) none]) = [Dispatch.onChat] :=
  ⟨rfl, by decide, by decide, rfl, rfl⟩

/-- Claim C8 amended: for frames with cmd 93101 or 93102 the body records are
dispatched in order by their effective type code — the first present, nonzero
value among msgTypeCode and messageTypeCode, defaulting to 1 (so records with
missing or zero type codes are treated as type 1) — with effective type 1
dispatching on_chat, 10 dispatching on_donation, and any other effective type
dispatching no callback, dropped with a debug-level note; frames with any
other cmd dispatch nothing. -/
theorem C8_dispatch_amended (cmd : ℤ) (body : List MsgRecord) (r : MsgRecord)
    (v w : ℤ) :
    (cmd = 93101 ∨ cmd = 93102 →
      handle_message cmd (some body) = body.map dispatchRecord
      ∧ handle_message cmd none = [])
    ∧ (¬(cmd = 93101 ∨ cmd = 93102) → ∀ b, handle_message cmd b = [])
    ∧ (dispatchRecord r = Dispatch.onChat ↔ r.effectiveType = 1)
    ∧ (dispatchRecord r = Dispatch.onDonation ↔ r.effectiveType = 10)
    ∧ (dispatchRecord r = Dispatch.droppedDebug
        ↔ (r.effectiveType ≠ 1 ∧ r.effectiveType ≠ 10))
    ∧ (v ≠ 0 → MsgRecord.effectiveType ⟨some v, r.messageTypeCode⟩ = v)
    ∧ (w ≠ 0 → MsgRecord.effectiveType ⟨none, some w⟩ = w)
    ∧ (w ≠ 0 → MsgRecord.effectiveType ⟨some 0, some w⟩ = w)
    ∧ MsgRecord.effectiveType ⟨none, none⟩ = 1
    ∧ MsgRecord.effectiveType ⟨some 0, none⟩ = 1
    ∧ MsgRecord.effectiveType ⟨some 0, some 0⟩ = 1 := by
  refine ⟨?_, ?_, ?_, ?_, ?_, ?_, ?_, ?_, rfl, rfl, rfl⟩
  · intro h
    unfold handle_message
    rw [if_pos h, if_pos h]
    exact ⟨rfl, rfl⟩
  · intro h b
    unfold handle_message
    rw [if_neg h]
  · by_cases h1 : r.effectiveType = 1
    · simp [dispatchRecord, h1]
    · by_cases h10 : r.effectiveType = 10
      · simp [dispatchRecord, h1, h10]
      · simp [dispatchRecord, h1, h10]
  · by_cases h1 : r.effectiveType = 1
    · simp [dispatchRecord, h1]
    · by_cases h10 : r.effectiveType = 10
      · simp [dispatchRecord, h1, h10]
      · simp [dispatchRecord, h1, h10]
  · by_cases h1 : r.effectiveType = 1
    · simp [dispatchRecord, h1]
    · by_cases h10 : r.effectiveType = 10
      · simp [dispatchRecord, h1, h10]
      · simp [dispatchRecord, h1, h10]
  · intro hv
    simp [MsgRecord.effectiveType, pyTruthyInt, hv]
  · intro hw
    simp [MsgRecord.effectiveType, pyTruthyInt, hw]
  · intro hw
    simp [MsgRecord.effectiveType, pyTruthyInt, hw]

/-- Witness for C8 amended: cmd 93102 with one donation record, a chat record
with explicit type 7, and nonzero codes 7 and 9. -/
theorem C8_dispatch_amended_witness :
    ((93102 : ℤ) = 93101 ∨ (93102 : ℤ) = 93102)
    ∧ (7 : ℤ) ≠ 0 ∧ (9 : ℤ) ≠ 0
    ∧ handle_message 93102 (some [MsgRecord.mk (some 10) none])
        = [MsgRecord.mk (some 10) none].map dispatchRecord
    ∧ (dispatchRecord (MsgRecord.mk (some 10) none) = Dispatch.onDonation
        ↔ (MsgRecord.mk (some 10) none).effectiveType = 10)
    ∧ MsgRecord.effectiveType ⟨some 7, (MsgRecord.mk (some 10) none).messageTypeCode⟩ = 7
    ∧ MsgRecord.effectiveType ⟨some 0, some 9⟩ = 9 := by
  have h := C8_dispatch_amended 93102 [MsgRecord.mk (some 10) none]
    (MsgRecord.mk (some 10) none) 7 9
  exact ⟨Or.inr rfl, by decide, by decide, (h.1 (Or.inr rfl)).1, h.2.2.2.1,
    h.2.2.2.2.2.1 (by decide), h.2.2.2.2.2.2.2.1 (by decide)⟩

/- ---- Claim C4 ---- -/

/-- The StreamInfo held by the active collector of the first broadcast
(live id 42 of channel ch). -/
def c4OldInfo : StreamInfo := StreamInfo.fromGetStatus (some 42) "ch" "title1" 0

/-- The StreamInfo just built by get_stream_status for the restarted
broadcast (live id 43 of the same channel). -/
def c4NewInfo : StreamInfo := StreamInfo.fromGetStatus (some 43) "ch" "title2" 1000

/-- Claim C4 (code bug): when the poll sees a live channel with an active
collector and a changed live_id, the stop-then-start restart never executes.
models.StreamInfo declares no live_id field and pydantic silently drops the
live_id keyword passed by get_stream_status, so the read of
stream_info.live_id in Watcher._check_channel raises AttributeError — caught
by the surrounding except-Exception retry — and neither stop nor start is
performed, even though the two broadcasts have distinct stream_ids. -/
theorem C4_live_id_attribute_error :
    checkChannelLiveBranch c4OldInfo c4NewInfo = Except.error PyError.attributeError
    ∧ c4OldInfo.getattr "live_id" = Except.error PyError.attributeError
    ∧ c4OldInfo.stream_id = "42_ch"
    ∧ c4NewInfo.stream_id = "43_ch"
    ∧ c4OldInfo.stream_id ≠ c4NewInfo.stream_id := by
  refine ⟨rfl, rfl, ?_, ?_, ?_⟩ <;> decide

/- ---- Claim C7 ---- -/

/-- The live-status payload of the C7 counterexample: outer status CLOSE while
the nested polling JSON reports isPublishing true — the situation the spec
itself calls out as occurring while actively streaming. -/
def c7Payload : LiveStatusPayload := ⟨some "CLOSE", .parsed true, some 42⟩

/-- Claim C7 counterexample: under the publishing-flag-first liveness rule the
channel counts as live (get_stream_status would report it live), yet
check_stream_and_connection returns (true, stream_ended), because it consults
only the outer status flag; so (true, stream_ended) is not returned exactly
when publishing-first liveness fails. -/
theorem C7_counterexample :
    statusLooksLive c7Payload = true
    ∧ check_stream_and_connection (.ok (some c7Payload)) true true true
        = (true, "stream_ended") := by
  constructor
  · rfl
  · simp [check_stream_and_connection, c7Payload]

/-- Claim C7 amended: check_stream_and_connection judges liveness solely by
the outer status field equaling OPEN (the publishing-flag-first rule belongs
to get_stream_status): it returns (true, stream_ended) exactly when the query
succeeded and the payload was missing or its outer status was not OPEN; when
the outer status is OPEN but the client wrapper or inner chat client is
missing it returns (true, client_not_initialized); it returns
(false, reconnecting) when live by the outer flag but disconnected,
(false, quiet_stream) when live and connected, and (false, check_error) on any
raised query error — it never returns should_stop on a transient status-check
failure. -/
theorem C7_check_stream_amended (q : StatusQuery) (cw ci conn : Bool)
    (p : LiveStatusPayload) :
    check_stream_and_connection .raisedError cw ci conn = (false, "check_error")
    ∧ (check_stream_and_connection q cw ci conn = (true, "stream_ended")
        ↔ (q = .ok none ∨ ∃ p2, q = .ok (some p2) ∧ p2.status ≠ some "OPEN"))
    ∧ (p.status = some "OPEN" → (cw = false ∨ ci = false) →
        check_stream_and_connection (.ok (some p)) cw ci conn
          = (true, "client_not_initialized"))
    ∧ (p.status = some "OPEN" →
        check_stream_and_connection (.ok (some p)) true true false
          = (false, "reconnecting"))
    ∧ (p.status = some "OPEN" →
        check_stream_and_connection (.ok (some p)) true true true
          = (false, "quiet_stream")) := by
  refine ⟨rfl, ?_, ?_, ?_, ?_⟩
  · cases q with
    | raisedError => simp [check_stream_and_connection]
    | ok payload =>
      cases payload with
      | none => simp [check_stream_and_connection]
      | some p2 =>
        by_cases hs : p2.status = some "OPEN"
        · cases cw <;> cases ci <;> cases conn <;>
            simp [check_stream_and_connection, hs]
        · have hb : (p2.status == some "OPEN") = false := by
            simp [hs]
          simp [check_stream_and_connection, hb, hs]
  · intro hs hci
    have hb : (p.status == some "OPEN") = true := by simp [hs]
    rcases hci with rfl | rfl
    · simp [check_stream_and_connection, hb]
    · cases cw <;> simp [check_stream_and_connection, hb]
  · intro hs
    have hb : (p.status == some "OPEN") = true := by simp [hs]
    simp [check_stream_and_connection, hb]
  · intro hs
    have hb : (p.status == some "OPEN") = true := by simp [hs]
    simp [check_stream_and_connection, hb]

/-- Witness for C7 amended at a live payload and an offline query. -/
theorem C7_check_stream_amended_witness :
    (⟨some "OPEN", PollingField.absent, none⟩ : LiveStatusPayload).status = some "OPEN"
    ∧ check_stream_and_connection .raisedError true true true = (false, "check_error")
    ∧ (check_stream_and_connection (.ok none) true true true = (true, "stream_ended")
        ↔ ((StatusQuery.ok none) = .ok none
            ∨ ∃ p2, (StatusQuery.ok none) = .ok (some p2) ∧ p2.status ≠ some "OPEN"))
    ∧ check_stream_and_connection
        (.ok (some ⟨some "OPEN", PollingField.absent, none⟩)) false true true
        = (true, "client_not_initialized")
    ∧ check_stream_and_connection
        (.ok (some ⟨some "OPEN", PollingField.absent, none⟩)) true true false
        = (false, "reconnecting")
    ∧ check_stream_and_connection
        (.ok (some ⟨some "OPEN", PollingField.absent, none⟩)) true true true
        = (false, "quiet_stream") := by
  have h := C7_check_stream_amended (.ok none) false true true
    ⟨some "OPEN", PollingField.absent, none⟩
  exact ⟨rfl, h.1, h.2.1, h.2.2.1 rfl (Or.inl rfl), h.2.2.2.1 rfl, h.2.2.2.2 rfl⟩

/- ---- Claim C6 ---- -/

theorem removeActive_not_mem (m : List (String × ℕ)) (sid : String) :
    sid ∉ (removeActive m sid).map Prod.fst := by
  unfold removeActive
  split
  · intro hmem
    rcases List.mem_map.mp hmem with ⟨p, hp, hfst⟩
    have hf := (List.mem_filter.mp hp).2
    simp at hf
    exact hf hfst
  · rename_i h
    exact h

theorem lookupStatus_setStatus (ch : String) (st : StreamStatus) :
    ∀ m : List (String × StreamStatus),
      lookupStatus (setStatus m ch st) ch = some st := by
  intro m
  induction m with
  | nil => simp [setStatus, lookupStatus]
  | cons p rest ih =>
    by_cases hp : p.1 = ch
    · simp [setStatus, hp, lookupStatus]
    · simpa [setStatus, hp, lookupStatus] using ih

/-- A collector completing while holding recorded events, with the inner chat
client already reset by connect_chat's cleanup and no idle-monitor stop
reason (for example, the watcher stopped it because the channel went
offline). -/
def c6Sample : CollectorFinal :=
  { stream_id := "42_ch", channel_id := "ch", event_count := 5,
    start_time := some 0, events_file := "out/events.jsonl",
    reconnect_count := 0, error_count := 0, clientInnerPresent := false }

/-- Claim C6 counterexample: a completion with no idle-monitor stop reason and
the inner chat client already reset yields a report with no stop_reason,
reconnect_count or error_count entry, refuting that every report contains
those fields. -/
theorem C6_counterexample :
    "stop_reason" ∉ (run_collector_finalize c6Sample 100 none [] []).report.map Prod.fst
    ∧ "reconnect_count"
        ∉ (run_collector_finalize c6Sample 100 none [] []).report.map Prod.fst
    ∧ "error_count"
        ∉ (run_collector_finalize c6Sample 100 none [] []).report.map Prod.fst := by
  refine ⟨?_, ?_, ?_⟩ <;>
    simp [run_collector_finalize, generate_report, c6Sample]

/-- Claim C6 amended: on every completion path the watcher writes a report
that always contains stream_id, channel_id, event_count, start_time, end_time
and events_file; the report contains stop_reason exactly when the idle
monitor stopped the collector with a nonempty reason, and reconnect_count and
error_count exactly when the wrapper still holds an inner chat client; the
external post-processing hook is invoked exactly once when at least one event
was recorded and never otherwise; the stream is removed from the
active-collector set; and the channel's previous_status is reset to OFFLINE
so a later live detection is not suppressed. -/
theorem C6_completion_amended (c : CollectorFinal) (now : ℚ)
    (stop_reason : Option String) (active : List (String × ℕ))
    (prev : List (String × StreamStatus)) :
    ("stream_id" ∈ (run_collector_finalize c now stop_reason active prev).report.map Prod.fst
      ∧ "channel_id" ∈ (run_collector_finalize c now stop_reason active prev).report.map Prod.fst
      ∧ "event_count" ∈ (run_collector_finalize c now stop_reason active prev).report.map Prod.fst
      ∧ "start_time" ∈ (run_collector_finalize c now stop_reason active prev).report.map Prod.fst
      ∧ "end_time" ∈ (run_collector_finalize c now stop_reason active prev).report.map Prod.fst
      ∧ "events_file" ∈ (run_collector_finalize c now stop_reason active prev).report.map Prod.fst)
    ∧ ("stop_reason" ∈ (run_collector_finalize c now stop_reason active prev).report.map Prod.fst
        ↔ (stop_reason ≠ none ∧ stop_reason ≠ some ""))
    ∧ ("reconnect_count" ∈ (run_collector_finalize c now stop_reason active prev).report.map Prod.fst
        ↔ c.clientInnerPresent = true)
    ∧ ("error_count" ∈ (run_collector_finalize c now stop_reason active prev).report.map Prod.fst
        ↔ c.clientInnerPresent = true)
    ∧ (run_collector_finalize c now stop_reason active prev).hookInvocations
        = (if 0 < c.event_count then 1 else 0)
    ∧ c.stream_id ∉ (run_collector_finalize c now stop_reason active prev).active_after.map Prod.fst
    ∧ lookupStatus (run_collector_finalize c now stop_reason active prev).previous_status_after
        c.channel_id = some StreamStatus.OFFLINE := by
  refine ⟨?_, ?_, ?_, ?_, rfl, removeActive_not_mem active c.stream_id,
    lookupStatus_setStatus c.channel_id StreamStatus.OFFLINE prev⟩
  · cases hci : c.clientInnerPresent <;>
      rcases stop_reason with _ | r <;>
        simp [run_collector_finalize, generate_report, hci]
  · cases hci : c.clientInnerPresent <;>
      rcases stop_reason with _ | r
    · simp [run_collector_finalize, generate_report, hci]
    · by_cases hr : r = ""
      · subst hr; simp [run_collector_finalize, generate_report, hci]
      · simp [run_collector_finalize, generate_report, hci, hr]
    · simp [run_collector_finalize, generate_report, hci]
    · by_cases hr : r = ""
      · subst hr; simp [run_collector_finalize, generate_report, hci]
      · simp [run_collector_finalize, generate_report, hci, hr]
  · cases hci : c.clientInnerPresent <;>
      rcases stop_reason with _ | r <;>
        simp [run_collector_finalize, generate_report, hci]
  · cases hci : c.clientInnerPresent <;>
      rcases stop_reason with _ | r <;>
        simp [run_collector_finalize, generate_report, hci]

/-- Witness for C6 amended: an idle stop with reason stream_ended, events
recorded and the inner client present. -/
theorem C6_completion_amended_witness :
    (("stream_id"
        ∈ (run_collector_finalize
            (CollectorFinal.mk "42_ch" "ch" 5 (some 0) "out/events.jsonl" 1 2 true)
            100 (some "stream_ended") [("42_ch", 0)] [("ch", StreamStatus.LIVE)]).report.map
            Prod.fst)
      ∧ ("stop_reason"
          ∈ (run_collector_finalize
              (CollectorFinal.mk "42_ch" "ch" 5 (some 0) "out/events.jsonl" 1 2 true)
              100 (some "stream_ended") [("42_ch", 0)]
              [("ch", StreamStatus.LIVE)]).report.map Prod.fst)
      ∧ ("reconnect_count"
          ∈ (run_collector_finalize
              (CollectorFinal.mk "42_ch" "ch" 5 (some 0) "out/events.jsonl" 1 2 true)
              100 (some "stream_ended") [("42_ch", 0)]
              [("ch", StreamStatus.LIVE)]).report.map Prod.fst)
      ∧ (run_collector_finalize
            (CollectorFinal.mk "42_ch" "ch" 5 (some 0) "out/events.jsonl" 1 2 true)
            100 (some "stream_ended") [("42_ch", 0)]
            [("ch", StreamStatus.LIVE)]).hookInvocations = 1
      ∧ ("42_ch" : String)
          ∉ (run_collector_finalize
              (CollectorFinal.mk "42_ch" "ch" 5 (some 0) "out/events.jsonl" 1 2 true)
              100 (some "stream_ended") [("42_ch", 0)]
              [("ch", StreamStatus.LIVE)]).active_after.map Prod.fst
      ∧ lookupStatus
          (run_collector_finalize
              (CollectorFinal.mk "42_ch" "ch" 5 (some 0) "out/events.jsonl" 1 2 true)
              100 (some "stream_ended") [("42_ch", 0)]
              [("ch", StreamStatus.LIVE)]).previous_status_after "ch"
          = some StreamStatus.OFFLINE) := by
  have h := C6_completion_amended
    (CollectorFinal.mk "42_ch" "ch" 5 (some 0) "out/events.jsonl" 1 2 true)
    100 (some "stream_ended") [("42_ch", 0)] [("ch", StreamStatus.LIVE)]
  refine ⟨h.1.1, h.2.1.mpr ⟨by simp, by simp⟩, h.2.2.1.mpr rfl, ?_, h.2.2.2.2.2.1,
    h.2.2.2.2.2.2⟩
  rw [h.2.2.2.2.1]
  norm_num
